import Mathlib

/-!
Shallow embedding of `marine_beacon.ino`: the flash-pattern tables, the
selector dispatch (`loop`'s switch statement) and the pattern player
(`blinkLamp`).  Lamp I/O is modelled as a trace of events: each
`digitalWrite(Lamp, b)` becomes `Ev.write b` and each `delay(ms)` becomes
`Ev.delay ms`.  Timing values are bytes (0–255) stored in `byte CodeXX[]`
arrays, modelled as `List Nat`.
-/

namespace MarineBeacon

/-- One observable action of the program on the lamp/scheduler:
a lamp write or a blocking delay in milliseconds. -/
inductive Ev where
  | write (b : Bool) : Ev
  | delay (ms : Nat) : Ev
deriving DecidableEq, Repr

/-- The body of `blinkLamp`'s for-loop, from the running `lampState`.
Each entry toggles `lampState`; a zero entry (`millisecs == 0`) performs
no write and no delay, a non-zero entry writes the toggled state and
delays `v * 100` ms. -/
def blinkAux (lampState : Bool) : List Nat → List Ev
  | [] => []
  | v :: rest =>
    let millisecs := v * 100
    if millisecs = 0 then
      blinkAux (!lampState) rest
    else
      Ev.write (!lampState) :: Ev.delay millisecs :: blinkAux (!lampState) rest

/-- `blinkLamp(pattern, pattern_length)`: plays the pattern once,
starting from `lampState = false`. -/
def blinkLamp (pattern : List Nat) : List Ev :=
  blinkAux false pattern

/-- The sequence of values written to the lamp during a trace. -/
def writesOf : List Ev → List Bool
  | [] => []
  | Ev.write b :: rest => b :: writesOf rest
  | Ev.delay _ :: rest => writesOf rest

/-- Total milliseconds spent suspended (in `delay`) during a trace. -/
def totalDelay : List Ev → Nat
  | [] => 0
  | Ev.write _ :: rest => totalDelay rest
  | Ev.delay d :: rest => d + totalDelay rest

/-- Pairs each lamp write with the delay that immediately follows it,
yielding the raw (polarity, duration-in-ms) segments of a trace. -/
def segsOf : List Ev → List (Bool × Nat)
  | Ev.write b :: Ev.delay d :: rest => (b, d) :: segsOf rest
  | _ :: rest => segsOf rest
  | [] => []

/-- Merges adjacent segments of equal polarity into one visible segment:
what an observer of the lamp actually sees. -/
def mergeSegs : List (Bool × Nat) → List (Bool × Nat)
  | [] => []
  | (b, d) :: rest =>
    match mergeSegs rest with
    | [] => [(b, d)]
    | (b2, d2) :: tail =>
      if b = b2 then (b, d + d2) :: tail else (b, d) :: (b2, d2) :: tail

/-- 16-bit signed (AVR `int`) wrap-around interpretation of a
mathematical natural number, as stored by `int millisecs = pattern[i] * 100`. -/
def toInt16 (n : Nat) : Int :=
  (((n + 32768) % 65536 : Nat) : Int) - 32768

/-- The value the source computes for `int millisecs = pattern[i] * 100`
when the entry is `v`, under AVR 16-bit `int` semantics. -/
def millisecsOf (v : Nat) : Int :=
  toInt16 (v * 100)

/-- Outcome of the selector dispatch in `loop`: case 0 asserts the lamp
steadily on, an assigned case plays its pattern, the `default` case plays
the fallback pattern `CodeFF`. -/
inductive SelectionResult where
  | steadyOn : SelectionResult
  | rhythm (p : List Nat) : SelectionResult
  | fallback (p : List Nat) : SelectionResult
deriving DecidableEq, Repr

/-- `true` iff the outcome is an assigned rhythm. -/
def SelectionResult.isRhythm : SelectionResult → Bool
  | SelectionResult.rhythm _ => true
  | _ => false

/-- `true` iff the outcome is the steady-on behavior. -/
def SelectionResult.isSteadyOn : SelectionResult → Bool
  | SelectionResult.steadyOn => true
  | _ => false

/-- `true` iff the outcome is the fallback behavior. -/
def SelectionResult.isFallback : SelectionResult → Bool
  | SelectionResult.fallback _ => true
  | _ => false

-- Flash pattern tables, one per byte CodeXX[] array in the source.
def Code01 : List Nat := [8, 32]
def Code02 : List Nat := [10, 140]
def Code03 : List Nat := [30, 20]
def Code04 : List Nat := [5, 10]
def Code05 : List Nat := [5, 11]
def Code06 : List Nat := [2, 98]
def Code07 : List Nat := [5, 10, 5, 30]
def Code08 : List Nat := [5, 15, 5, 15, 5, 105]
def Code09 : List Nat := [7, 5, 7, 5, 19, 107]
def Code0A : List Nat := [5, 10, 5, 20]
def Code0B : List Nat := [3, 10, 3, 10, 3, 61]
def Code0C : List Nat := [3, 2, 3, 2, 3, 37]
def Code0D : List Nat := [5, 15, 5, 15, 5, 45, 5, 105]
def Code0E : List Nat := [3, 7, 3, 7, 3, 7, 3, 7, 3, 7, 3, 7, 3, 7, 3, 7, 3, 67]
def Code0F : List Nat := [5, 5, 5, 5, 5, 5, 5, 165]
def Code10 : List Nat := [3, 12]
def Code11 : List Nat := [10, 30]
def Code12 : List Nat := [10, 10]
def Code13 : List Nat := [40, 10]
def Code14 : List Nat := [15, 85]
def Code15 : List Nat := [2, 28]
def Code16 : List Nat := [3, 97]
def Code17 : List Nat := [10, 10, 10, 20]
def Code18 : List Nat := [10, 10, 10, 40, 101]
def Code19 : List Nat := [7, 7, 7, 7, 21, 101]
def Code1A : List Nat := [3, 10, 3, 29]
def Code1B : List Nat := [5, 15, 5, 15, 5, 75]
def Code1C : List Nat := [1, 5, 1, 5, 1, 137]
def Code1D : List Nat := [5, 10, 5, 10, 50, 10, 5, 50]
def Code1E : List Nat := [6, 6, 6, 6, 6, 6, 6, 6, 6, 6, 6, 6, 6, 6, 6, 6, 6, 48]
def Code1F : List Nat := [2, 8, 2, 8, 2, 8, 2, 8, 2, 8, 2, 8, 2, 8, 2, 8, 2, 68]
def Code20 : List Nat := [2, 18]
def Code21 : List Nat := [15, 25]
def Code22 : List Nat := [15, 15]
def Code23 : List Nat := [45, 5]
def Code24 : List Nat := [40, 60]
def Code25 : List Nat := [4, 26]
def Code26 : List Nat := [8, 92]
def Code28 : List Nat := [8, 12, 8, 32]
def Code29 : List Nat := [5, 5, 5, 35]
def Code2A : List Nat := [4, 10, 4, 27]
def Code2B : List Nat := [3, 4, 3, 12, 3, 35]
def Code2C : List Nat := [2, 12, 2, 34]
def Code2D : List Nat := [8, 12, 8, 12, 8, 12, 8, 32]
def Code2E : List Nat := [3, 7, 3, 7, 3, 7, 3, 7, 3, 7, 3, 7, 20, 70]
def Code2F : List Nat := [2, 8, 2, 8, 2, 8, 2, 8, 2, 8, 2, 8, 20, 70]
def Code30 : List Nat := [3, 17]
def Code31 : List Nat := [13, 30]
def Code32 : List Nat := [20, 20]
def Code33 : List Nat := [45, 15]
def Code34 : List Nat := [20, 100]
def Code35 : List Nat := [20, 10]
def Code36 : List Nat := [25, 15]
def Code37 : List Nat := [10, 10, 10, 30]
def Code38 : List Nat := [5, 7, 5, 21, 5, 57]
def Code39 : List Nat := [3, 7, 3, 7, 3, 47]
def Code3A : List Nat := [5, 10, 5, 25]
def Code3B : List Nat := [5, 15, 5, 15, 5, 155]
def Code3C : List Nat := [5, 10, 5, 10, 25]
def Code3D : List Nat := [8, 12, 8, 12, 8, 12, 8, 52]
def Code3E : List Nat := [6, 6, 6, 6, 6, 6, 6, 6, 6, 6, 6, 6, 20, 58]
def Code3F : List Nat := [15, 15, 15, 15, 15, 15, 15, 95]
def Code40 : List Nat := [4, 16]
def Code41 : List Nat := [3, 47]
def Code42 : List Nat := [25, 25]
def Code43 : List Nat := [50, 10]
def Code44 : List Nat := [40, 110]
def Code45 : List Nat := [2, 38]
def Code46 : List Nat := [25, 20]
def Code47 : List Nat := [5, 10, 5, 60]
def Code48 : List Nat := [8, 12, 8, 24, 8, 60]
def Code49 : List Nat := [6, 4, 6, 84]
def Code4A : List Nat := [4, 6, 4, 36]
def Code4B : List Nat := [5, 30, 5, 30, 125]
def Code4C : List Nat := [30, 20, 10, 20]
def Code4D : List Nat := [5, 15, 5, 15, 5, 15, 5, 85]
def Code4E : List Nat := [2, 3, 2, 3, 2, 3, 2, 3, 2, 3, 2, 3, 2, 3, 2, 3, 2, 58]
def Code4F : List Nat := [5, 5, 5, 5, 5, 5, 5, 85]
def Code50 : List Nat := [5, 15]
def Code51 : List Nat := [5, 45]
def Code52 : List Nat := [30, 30]
def Code53 : List Nat := [70, 30]
def Code54 : List Nat := [20, 10]
def Code55 : List Nat := [3, 37]
def Code56 : List Nat := [45, 25]
def Code57 : List Nat := [10, 10, 10, 50]
def Code58 : List Nat := [10, 10, 10, 40, 10, 40]
def Code59 : List Nat := [2, 3, 2, 3, 2, 38]
def Code5A : List Nat := [4, 14, 4, 33]
def Code5B : List Nat := [8, 12, 8, 12, 8, 152]
def Code5C : List Nat := [50, 10, 10, 10]
def Code5D : List Nat := [5, 15, 5, 15, 5, 15, 5, 135]
def Code5E : List Nat := [3, 3, 3, 3, 3, 3, 3, 3, 3, 3, 3, 3, 3, 3, 3, 3, 3, 49]
def Code5F : List Nat := [5, 5, 5, 5, 5, 5, 5, 5, 5, 155]
def Code60 : List Nat := [2, 13]
def Code61 : List Nat := [10, 40]
def Code62 : List Nat := [40, 40]
def Code63 : List Nat := [75, 25]
def Code64 : List Nat := [40, 20]
def Code65 : List Nat := [6, 34]
def Code66 : List Nat := [50, 30]
def Code67 : List Nat := [5, 10, 5, 8]
def Code68 : List Nat := [10, 20, 10, 50, 10, 50]
def Code69 : List Nat := [5, 20, 5, 70]
def Code6A : List Nat := [3, 10, 3, 44]
def Code6B : List Nat := [10, 10, 10, 10, 10, 150]
def Code6E : List Nat := [2, 3, 2, 3, 2, 3, 2, 3, 2, 3, 2, 3, 20, 50]
def Code6F : List Nat := [5, 5, 5, 5, 5, 5, 5, 255, 0, 10]
def Code70 : List Nat := [3, 12]
def Code71 : List Nat := [15, 35]
def Code72 : List Nat := [50, 50]
def Code73 : List Nat := [2, 8]
def Code74 : List Nat := [100, 50]
def Code75 : List Nat := [12, 48]
def Code76 : List Nat := [60, 30]
def Code77 : List Nat := [5, 15, 5, 75]
def Code78 : List Nat := [3, 6, 10, 41]
def Code79 : List Nat := [5, 5, 5, 5, 5, 25]
def Code7A : List Nat := [4, 10, 4, 42]
def Code7B : List Nat := [4, 6, 20, 50]
def Code7C : List Nat := [4, 6, 20, 50]
def Code7D : List Nat := [15, 5, 5, 5, 5, 5, 5, 105]
def Code7E : List Nat := [3, 3, 3, 3, 3, 3, 3, 3, 3, 3, 3, 3, 20, 44]
def Code7F : List Nat := [5, 10, 5, 10, 5, 10, 5, 10, 50, 10, 5, 70]
def Code80 : List Nat := [3, 22]
def Code81 : List Nat := [5, 5]
def Code82 : List Nat := [20, 30]
def Code83 : List Nat := [3, 7]
def Code84 : List Nat := [8, 2]
def Code85 : List Nat := [2, 48]
def Code86 : List Nat := [60, 40]
def Code87 : List Nat := [8, 12, 8, 72]
def Code88 : List Nat := [8, 12, 24, 36]
def Code89 : List Nat := [50, 10, 10, 10, 10, 10]
def Code8A : List Nat := [4, 10, 4, 62]
def Code8B : List Nat := [2, 8, 2, 138]
def Code8D : List Nat := [4, 6, 4, 6, 4, 6, 4, 26]
def Code8E : List Nat := [10, 10, 10, 10, 10, 10, 80]
def Code8F : List Nat := [3, 3, 3, 3, 3, 3, 3, 3, 3, 3, 3, 3, 20, 94]
def Code90 : List Nat := [5, 20]
def Code91 : List Nat := [6, 54]
def Code92 : List Nat := [20, 40]
def Code93 : List Nat := [4, 6]
def Code94 : List Nat := [5, 7]
def Code95 : List Nat := [9, 41]
def Code96 : List Nat := [20, 50]
def Code97 : List Nat := [10, 15, 10, 65]
def Code98 : List Nat := [5, 5, 15, 75]
def Code99 : List Nat := [5, 10, 4, 40]
def Code9A : List Nat := [4, 16, 4, 76]
def Code9B : List Nat := [3, 7, 3, 37]
def Code9D : List Nat := [4, 10, 4, 10, 118]
def Code9E : List Nat := [10, 10, 10, 10, 10, 10, 10, 10, 10, 111]
def Code9F : List Nat := [8, 12, 8, 12, 8, 12, 8, 12, 8, 112]
def CodeA0 : List Nat := [3, 27]
def CodeA1 : List Nat := [10, 50]
def CodeA2 : List Nat := [20, 60]
def CodeA3 : List Nat := [5, 5]
def CodeA4 : List Nat := [10, 60]
def CodeA5 : List Nat := [20, 180]
def CodeA6 : List Nat := [10, 20, 10, 110]
def CodeA7 : List Nat := [5, 15, 20, 110]
def CodeA8 : List Nat := [5, 15, 20, 110]
def CodeA9 : List Nat := [10, 10, 10, 40]
def CodeAA : List Nat := [3, 9, 3, 45]
def CodeAB : List Nat := [3, 7, 3, 7, 3, 37]
def CodeAD : List Nat := [3, 7, 3, 7, 3, 7, 3, 87]
def CodeAE : List Nat := [5, 10, 5, 10, 5, 10, 5, 10, 5, 10, 5, 70]
def CodeAF : List Nat := [3, 7, 3, 7, 3, 7, 3, 7, 3, 7, 3, 97]
def CodeB0 : List Nat := [15, 15]
def CodeB1 : List Nat := [15, 45]
def CodeB2 : List Nat := [30, 50]
def CodeB3 : List Nat := [3, 9]
def CodeB4 : List Nat := [10, 70]
def CodeB5 : List Nat := [3, 57]
def CodeB6 : List Nat := [10, 10, 10, 30, 10, 50]
def CodeB7 : List Nat := [8, 12, 8, 12, 8, 42]
def CodeB8 : List Nat := [3, 7, 3, 7, 9, 71]
def CodeB9 : List Nat := [10, 10, 10, 70]
def CodeBA : List Nat := [4, 10, 4, 102]
def CodeBB : List Nat := [3, 7, 3, 7, 3, 77]
def CodeBD : List Nat := [3, 7, 3, 7, 3, 7, 3, 27]
def CodeBE : List Nat := [3, 17, 3, 17, 3, 17, 3, 57]
def CodeBF : List Nat := [3, 3, 3, 3, 3, 3, 3, 23]
def CodeC0 : List Nat := [7, 23]
def CodeC1 : List Nat := [8, 67]
def CodeC2 : List Nat := [20, 80]
def CodeC3 : List Nat := [6, 6]
def CodeC4 : List Nat := [10, 80]
def CodeC5 : List Nat := [4, 56]
def CodeC6 : List Nat := [2, 58]
def CodeC7 : List Nat := [5, 15, 5, 15, 5, 55]
def CodeC8 : List Nat := [4, 6, 4, 6, 12, 68]
def CodeC9 : List Nat := [5, 10, 5, 100]
def CodeCA : List Nat := [10, 30, 10, 150]
def CodeCB : List Nat := [5, 5, 5, 5, 5, 75]
def CodeCD : List Nat := [3, 30, 3, 30, 3, 30, 3, 98]
def CodeCE : List Nat := [5, 15, 5, 15, 5, 15, 5, 55]
def CodeD0 : List Nat := [10, 20]
def CodeD1 : List Nat := [5, 95]
def CodeD2 : List Nat := [30, 70]
def CodeD3 : List Nat := [2, 3]
def CodeD4 : List Nat := [25, 95]
def CodeD5 : List Nat := [5, 70]
def CodeD6 : List Nat := [10, 15]
def CodeD7 : List Nat := [10, 10, 10, 10, 10, 50]
def CodeD8 : List Nat := [5, 5, 5, 5, 15, 65]
def CodeD9 : List Nat := [15, 20, 15, 70]
def CodeDA : List Nat := [10, 10, 10, 220]
def CodeDB : List Nat := [6, 6, 6, 6, 6, 70]
def CodeDD : List Nat := [3, 7, 3, 7, 3, 7, 3, 7, 3, 27]
def CodeDE : List Nat := [5, 15, 5, 15, 5, 15, 5, 95]
def CodeE0 : List Nat := [4, 36]
def CodeE1 : List Nat := [10, 90]
def CodeE2 : List Nat := [25, 5]
def CodeE3 : List Nat := [2, 4]
def CodeE4 : List Nat := [10, 250]
def CodeE5 : List Nat := [5, 75]
def CodeE7 : List Nat := [8, 12, 8, 12, 8, 72]
def CodeE8 : List Nat := [5, 15, 5, 15, 5, 15, 5, 15, 5, 35]
def CodeE9 : List Nat := [3, 3, 3, 3, 3, 35]
def CodeEA : List Nat := [5, 20, 5, 20, 5, 65]
def CodeEB : List Nat := [2, 10, 2, 26]
def CodeED : List Nat := [3, 7, 3, 7, 3, 7, 3, 7, 3, 57]
def CodeEE : List Nat := [5, 5, 5, 5, 5, 5, 5, 245]
def CodeF0 : List Nat := [5, 35]
def CodeF1 : List Nat := [12, 108]
def CodeF2 : List Nat := [30, 10]
def CodeF3 : List Nat := [3, 3]
def CodeF4 : List Nat := [2, 13]
def CodeF5 : List Nat := [9, 81]
def CodeF7 : List Nat := [3, 17, 3, 17, 3, 107]
def CodeF8 : List Nat := [6, 3, 6, 3, 14, 118]
def CodeF9 : List Nat := [2, 8, 2, 38]
def CodeFA : List Nat := [5, 10, 5, 10, 5, 45]
def CodeFB : List Nat := [2, 10, 2, 66]
def CodeFD : List Nat := [3, 7, 3, 7, 3, 7, 3, 7, 3, 7, 3, 47]
def CodeFE : List Nat := [3, 7, 3, 7, 3, 7, 3, 67]
def CodeFF : List Nat := [6, 3, 14, 3, 6, 3, 6, 10, 14, 3, 14, 3, 14, 10, 6, 3, 14, 3, 6, 3, 6, 70]

/-- The case labels of the switch statement in loop: each `case N:
blinkLamp(CodeXX, sizeof(CodeXX))` arm becomes the pair `(N, CodeXX)`,
in source order. -/
def dispatchTable : List (Nat × List Nat) := [
  (1, Code01), (2, Code02), (3, Code03), (4, Code04), (5, Code05), (6, Code06),
  (7, Code07), (8, Code08), (9, Code09), (10, Code0A), (11, Code0B), (12, Code0C),
  (13, Code0D), (14, Code0E), (15, Code0F), (16, Code10), (17, Code11), (18, Code12),
  (19, Code13), (20, Code14), (21, Code15), (22, Code16), (23, Code17), (24, Code18),
  (25, Code19), (26, Code1A), (27, Code1B), (28, Code1C), (29, Code1D), (30, Code1E),
  (31, Code1F), (32, Code20), (33, Code21), (34, Code22), (35, Code23), (36, Code24),
  (37, Code25), (38, Code26), (40, Code28), (41, Code29), (42, Code2A), (43, Code2B),
  (44, Code2C), (45, Code2D), (46, Code2E), (47, Code2F), (48, Code30), (49, Code31),
  (50, Code32), (51, Code33), (52, Code34), (53, Code35), (54, Code36), (55, Code37),
  (56, Code38), (57, Code39), (58, Code3A), (59, Code3B), (60, Code3C), (61, Code3D),
  (62, Code3E), (63, Code3F), (64, Code40), (65, Code41), (66, Code42), (67, Code43),
  (68, Code44), (69, Code45), (70, Code46), (71, Code47), (72, Code48), (73, Code49),
  (74, Code4A), (75, Code4B), (76, Code4C), (77, Code4D), (78, Code4E), (79, Code4F),
  (80, Code50), (81, Code51), (82, Code52), (83, Code53), (84, Code54), (85, Code55),
  (86, Code56), (87, Code57), (88, Code58), (89, Code59), (90, Code5A), (91, Code5B),
  (92, Code5C), (93, Code5D), (94, Code5E), (95, Code5F), (96, Code60), (97, Code61),
  (98, Code62), (99, Code63), (100, Code64), (101, Code65), (102, Code66), (103, Code67),
  (104, Code68), (105, Code69), (106, Code6A), (107, Code6B), (110, Code6E), (111, Code6F),
  (112, Code70), (113, Code71), (114, Code72), (115, Code73), (116, Code74), (117, Code75),
  (118, Code76), (119, Code77), (120, Code78), (121, Code79), (122, Code7A), (123, Code7B),
  (124, Code7C), (125, Code7D), (126, Code7E), (127, Code7F), (128, Code80), (129, Code81),
  (130, Code82), (131, Code83), (132, Code84), (133, Code85), (134, Code86), (135, Code87),
  (136, Code88), (137, Code89), (138, Code8A), (139, Code8B), (141, Code8D), (142, Code8E),
  (143, Code8F), (144, Code90), (145, Code91), (146, Code92), (147, Code93), (148, Code94),
  (149, Code95), (150, Code96), (151, Code97), (152, Code98), (153, Code99), (154, Code9A),
  (155, Code9B), (157, Code9D), (158, Code9E), (159, Code9F), (160, CodeA0), (161, CodeA1),
  (162, CodeA2), (163, CodeA3), (164, CodeA4), (165, CodeA5), (166, CodeA6), (167, CodeA7),
  (168, CodeA8), (169, CodeA9), (170, CodeAA), (171, CodeAB), (173, CodeAD), (174, CodeAE),
  (175, CodeAF), (176, CodeB0), (177, CodeB1), (178, CodeB2), (179, CodeB3), (180, CodeB4),
  (181, CodeB5), (182, CodeB6), (183, CodeB7), (184, CodeB8), (185, CodeB9), (186, CodeBA),
  (187, CodeBB), (189, CodeBD), (190, CodeBE), (191, CodeBF), (192, CodeC0), (193, CodeC1),
  (194, CodeC2), (195, CodeC3), (196, CodeC4), (197, CodeC5), (198, CodeC6), (199, CodeC7),
  (200, CodeC8), (201, CodeC9), (202, CodeCA), (203, CodeCB), (205, CodeCD), (206, CodeCE),
  (208, CodeD0), (209, CodeD1), (210, CodeD2), (211, CodeD3), (212, CodeD4), (213, CodeD5),
  (214, CodeD6), (215, CodeD7), (216, CodeD8), (217, CodeD9), (218, CodeDA), (219, CodeDB),
  (221, CodeDD), (222, CodeDE), (224, CodeE0), (225, CodeE1), (226, CodeE2), (227, CodeE3),
  (228, CodeE4), (229, CodeE5), (231, CodeE7), (232, CodeE8), (233, CodeE9), (234, CodeEA),
  (235, CodeEB), (237, CodeED), (238, CodeEE), (240, CodeF0), (241, CodeF1), (242, CodeF2),
  (243, CodeF3), (244, CodeF4), (245, CodeF5), (247, CodeF7), (248, CodeF8), (249, CodeF9),
  (250, CodeFA), (251, CodeFB), (253, CodeFD), (254, CodeFE)]

/-- The switch statement in loop, resolving a selector code to its outcome:
`case 0` asserts the lamp steadily on, each assigned case plays its pattern
array, and the `default` arm plays the fallback pattern `CodeFF`.
Pure and total by construction: a Lean function of the code alone. -/
def resolve (c : Nat) : SelectionResult :=
  if c = 0 then SelectionResult.steadyOn
  else
    match dispatchTable.lookup c with
    | some p => SelectionResult.rhythm p
    | none => SelectionResult.fallback CodeFF

/-- One pass of loop for selector code c, as its lamp/delay trace. -/
def loopTrace (c : Nat) : List Ev :=
  match resolve c with
  | SelectionResult.steadyOn => [Ev.write true]
  | SelectionResult.rhythm p => blinkLamp p
  | SelectionResult.fallback p => blinkLamp p

/-! ## Helper lemmas about the player -/

lemma blinkAux_nil (s : Bool) : blinkAux s [] = [] := rfl

lemma blinkAux_cons_ne (s : Bool) (v : Nat) (rest : List Nat) (hv : v ≠ 0) :
    blinkAux s (v :: rest) =
      Ev.write (!s) :: Ev.delay (v * 100) :: blinkAux (!s) rest := by
  have h100 : v * 100 ≠ 0 := Nat.mul_ne_zero hv (by norm_num)
  simp [blinkAux, h100]

lemma blinkAux_cons_zero (s : Bool) (rest : List Nat) :
    blinkAux s (0 :: rest) = blinkAux (!s) rest := by
  simp [blinkAux]

lemma writesOf_blinkAux (s : Bool) (p : List Nat) (h : ∀ v ∈ p, v ≠ 0) :
    writesOf (blinkAux s p) =
      (List.range p.length).map (fun i => if i % 2 = 0 then !s else s) := by
  induction p generalizing s with
  | nil => simp [blinkAux, writesOf]
  | cons v rest ih =>
    have hv : v ≠ 0 := h v (by simp)
    rw [blinkAux_cons_ne s v rest hv]
    simp only [writesOf, List.length_cons]
    rw [ih (!s) (fun w hw => h w (List.mem_cons_of_mem _ hw))]
    rw [List.range_succ_eq_map]
    simp only [List.map_cons, Nat.zero_mod, if_pos rfl, List.map_map]
    congr 1
    apply List.map_congr_left
    intro i _
    rcases Nat.mod_two_eq_zero_or_one i with h2 | h2
    · have h3 : (i + 1) % 2 = 1 := by omega
      simp [Function.comp, h2, h3]
    · have h3 : (i + 1) % 2 = 0 := by omega
      simp [Function.comp, h2, h3]

lemma totalDelay_blinkAux (s : Bool) (p : List Nat) (h : ∀ v ∈ p, v ≠ 0) :
    totalDelay (blinkAux s p) = p.sum * 100 := by
  induction p generalizing s with
  | nil => simp [blinkAux, totalDelay]
  | cons v rest ih =>
    have hv : v ≠ 0 := h v (by simp)
    rw [blinkAux_cons_ne s v rest hv]
    simp only [totalDelay, List.sum_cons]
    rw [ih (!s) (fun w hw => h w (List.mem_cons_of_mem _ hw))]
    ring

/-! ## Claim theorems -/

set_option maxRecDepth 8192 in
set_option maxHeartbeats 2000000 in
/-- Claim C1: for every selector code in 0..255, the selection step resolves
the code to exactly one of the three outcomes (the three outcome forms are
mutually exclusive and one always holds), with SteadyOn exactly for code 0,
an assigned rhythm exactly when the dispatch table assigns one (and then the
outcome carries that code's assigned array), and the fallback outcome always
carrying CodeFF.  Purity and determinism hold by construction: `resolve` is
a Lean function of the code alone, with no state. -/
theorem resolve_total_trichotomy (c : Nat) (h : c < 256) :
    (((resolve c).isSteadyOn).toNat + ((resolve c).isRhythm).toNat
        + ((resolve c).isFallback).toNat = 1)
    ∧ ((resolve c).isSteadyOn = true ↔ c = 0)
    ∧ ((resolve c).isRhythm = (dispatchTable.lookup c).isSome)
    ∧ ((match resolve c with
        | SelectionResult.rhythm p => dispatchTable.lookup c == some p
        | _ => true) = true)
    ∧ ((resolve c).isFallback = true → resolve c = SelectionResult.fallback CodeFF) := by
  revert c
  decide

/-- Witness for C1 at the concrete codes 0 and 3. -/
theorem resolve_total_trichotomy_witness :
    ((resolve 0).isSteadyOn = true ↔ (0 : Nat) = 0) ∧
    ((resolve 3).isRhythm = (dispatchTable.lookup 3).isSome) :=
  ⟨(resolve_total_trichotomy 0 (by decide)).2.1,
   (resolve_total_trichotomy 3 (by decide)).2.2.1⟩

/-- Claim C2: playing `[5, 0, 5, 20]` yields exactly one visible on-segment
of 1000 ms followed by one visible off-segment of 2000 ms — the zero entry
merges the two 5-tick entries into one continuous on interval (no
transition of the complementary polarity in between), not three segments. -/
theorem fold_marker_merges_segments :
    mergeSegs (segsOf (blinkLamp [5, 0, 5, 20])) = [(true, 1000), (false, 2000)] := by
  decide

/-- Claim C3: a pass over a fold-free definition of N byte entries summing
to S performs exactly N lamp writes and spends exactly S * 100 ms suspended;
the trace is a finite list, so the pass ends without internal looping. -/
theorem fold_free_pass_counts (p : List Nat)
    (h : ∀ v ∈ p, 0 < v ∧ v ≤ 255) :
    (writesOf (blinkLamp p)).length = p.length ∧
    totalDelay (blinkLamp p) = p.sum * 100 := by
  have h' : ∀ v ∈ p, v ≠ 0 := fun v hv => Nat.pos_iff_ne_zero.mp (h v hv).1
  constructor
  · rw [blinkLamp, writesOf_blinkAux false p h']
    simp
  · exact totalDelay_blinkAux false p h'

/-- Witness for C3 at the pattern of code 1, `[8, 32]`. -/
theorem fold_free_pass_counts_witness :
    (writesOf (blinkLamp [8, 32])).length = [8, 32].length ∧
    totalDelay (blinkLamp [8, 32]) = [8, 32].sum * 100 :=
  fold_free_pass_counts [8, 32] (by decide)

/-- Counterexample to claim C4: in `[5, 0, 0, 5]` the first entry is written
on (`true`) but the final entry is written off (`false`) — the opposite
polarity, not the same polarity as the claim states. -/
theorem double_fold_counterexample :
    writesOf (blinkLamp [5, 0, 0, 5]) = [true, false] ∧
    (writesOf (blinkLamp [5, 0, 0, 5])).get? 1 ≠
      (writesOf (blinkLamp [5, 0, 0, 5])).get? 0 := by
  decide

/-- Claim C4 as amended: two consecutive fold markers cancel rather than
compose.  Every entry, zero included, toggles the tracked polarity, so in
`[.., N, 0, 0, M, ..]` (N, M non-zero) the pair of zeros restores the
nominal alternation and M is played at the polarity opposite to N — the same
polarity M would have in `[.., N, M, ..]`. -/
theorem double_fold_cancels (s : Bool) (N M : Nat) (rest : List Nat)
    (hN : N ≠ 0) (hM : M ≠ 0) :
    blinkAux s (N :: 0 :: 0 :: M :: rest) =
      Ev.write (!s) :: Ev.delay (N * 100) ::
        Ev.write s :: Ev.delay (M * 100) :: blinkAux s rest := by
  rw [blinkAux_cons_ne s N _ hN, blinkAux_cons_zero, blinkAux_cons_zero,
    Bool.not_not, blinkAux_cons_ne (!s) M rest hM, Bool.not_not]

/-- Witness for the amended C4 at `s = false`, `N = M = 5`. -/
theorem double_fold_cancels_witness :
    blinkAux false [5, 0, 0, 5] =
      Ev.write (!false) :: Ev.delay (5 * 100) ::
        Ev.write false :: Ev.delay (5 * 100) :: blinkAux false [] :=
  double_fold_cancels false 5 5 [] (by decide) (by decide)

/-- Counterexample to claim C5: `blinkLamp` on a length-0 definition returns
having done nothing (empty trace), while playing the fallback rhythm CodeFF
produces a non-empty trace — the two are not equivalent. -/
theorem empty_pattern_counterexample :
    blinkLamp [] = [] ∧ blinkLamp CodeFF ≠ [] := by
  decide

set_option maxRecDepth 8192 in
set_option maxHeartbeats 2000000 in
/-- Claim C5 as amended: a length-0 definition makes the player perform no
writes and no delays and return immediately; the no-silently-dark guarantee
lives in the dispatch instead — every selector code's pass produces a
non-empty trace (steady on, an assigned rhythm, or the fallback CodeFF), so
the player is never reached with an empty pattern. -/
theorem empty_pattern_noop_dispatch_covers (c : Nat) (h : c < 256) :
    blinkLamp [] = [] ∧ loopTrace c ≠ [] := by
  revert c
  decide

/-- Witness for the amended C5 at the unassigned code 39. -/
theorem empty_pattern_noop_dispatch_covers_witness :
    blinkLamp [] = [] ∧ loopTrace 39 ≠ [] :=
  empty_pattern_noop_dispatch_covers 39 (by decide)

/-- Claim C6: for selector code 0 the cycle writes the lamp on directly:
the trace is a single on-write, with no further transitions, no delays and
no invocation of the tick-based player. -/
theorem code_zero_steady_on :
    loopTrace 0 = [Ev.write true] ∧
    totalDelay (loopTrace 0) = 0 ∧
    writesOf (loopTrace 0) = [true] := by
  decide

set_option maxRecDepth 8192 in
set_option maxHeartbeats 2000000 in
/-- Claim C7: every unassigned selector code resolves to the fallback
CodeFF; CodeFF has even length with all entries in 0..255; and no assigned
code's rhythm array equals CodeFF. -/
theorem unassigned_codes_fallback :
    (([39, 108, 109, 140, 156, 172, 188, 204, 207, 220, 223, 230, 236,
        239, 246, 252, 255] : List Nat).all
      (fun c => resolve c == SelectionResult.fallback CodeFF) = true)
    ∧ CodeFF.length % 2 = 0
    ∧ (CodeFF.all (fun v => v ≤ 255) = true)
    ∧ ((List.range 256).all (fun c =>
        match resolve c with
        | SelectionResult.rhythm p => !(p == CodeFF)
        | _ => true) = true) := by
  decide

set_option maxRecDepth 8192 in
set_option maxHeartbeats 2000000 in
/-- Claim C8: selector code 1 plays Code01 = [8, 32]: the lamp turns on for
800 ms, then off for 3200 ms, and the pass ends — one on/off cycle
totalling 4000 ms of suspension. -/
theorem code_one_end_to_end :
    resolve 1 = SelectionResult.rhythm Code01 ∧
    Code01 = [8, 32] ∧
    loopTrace 1 = [Ev.write true, Ev.delay 800, Ev.write false, Ev.delay 3200] ∧
    totalDelay (loopTrace 1) = 4000 := by
  decide

set_option maxRecDepth 8192 in
set_option maxHeartbeats 2000000 in
/-- Claim C9: for every byte tick value v, the 16-bit signed computation
`int millisecs = pattern[i] * 100` yields exactly v * 100 with no overflow,
and v * 100 is at most 25500 ms. -/
theorem tick_delay_no_overflow (v : Nat) (h : v ≤ 255) :
    millisecsOf v = (v : Int) * 100 ∧ v * 100 ≤ 25500 := by
  revert v
  decide

/-- Witness for C9 at the extreme byte value 255. -/
theorem tick_delay_no_overflow_witness :
    millisecsOf 255 = (255 : Int) * 100 ∧ (255 : Nat) * 100 ≤ 25500 :=
  tick_delay_no_overflow 255 (by decide)

/-- Claim C10: on a fold-free definition the lamp writes strictly alternate
starting with on — the write for entry i is on exactly when i is even — so
an even-length fold-free definition always ends its pass with the lamp
written off. -/
theorem fold_free_alternation (p : List Nat) (h : ∀ v ∈ p, v ≠ 0) :
    ((writesOf (blinkLamp p)).length = p.length) ∧
    (∀ i, (hi : i < (writesOf (blinkLamp p)).length) →
      ((writesOf (blinkLamp p)).get ⟨i, hi⟩ = true ↔ i % 2 = 0)) ∧
    (p ≠ [] → p.length % 2 = 0 →
      (writesOf (blinkLamp p)).getLast? = some false) := by
  have hw := writesOf_blinkAux false p h
  rw [blinkLamp]
  refine ⟨by rw [hw]; simp, ?_, ?_⟩
  · intro i hi
    revert hi
    rw [hw]
    intro hi
    simp only [List.get_eq_getElem, List.getElem_map, List.getElem_range]
    rcases Nat.mod_two_eq_zero_or_one i with h2 | h2 <;> simp [h2]
  · intro hne heven
    rw [hw]
    obtain ⟨m, hm⟩ : ∃ m, p.length = m + 1 := by
      cases hp : p with
      | nil => exact absurd hp hne
      | cons a l => exact ⟨l.length, by simp [hp]⟩
    rw [hm, List.range_succ, List.map_append]
    have hmodd : m % 2 = 1 := by omega
    simp [List.getLast?_append, hmodd]

/-- Witness for C10 at the pattern `[8, 32]`. -/
theorem fold_free_alternation_witness :
    (writesOf (blinkLamp [8, 32])).getLast? = some false :=
  (fold_free_alternation [8, 32] (by decide)).2.2 (by decide) (by decide)

end MarineBeacon
